import Mathlib

/-!
Shallow embedding of the finance-tracker backend's aggregation and
status-computation core (budget status, goal progress, analytics) together
with the goal/budget route handlers the claims refer to.

Modelling conventions:
* monetary amounts are exact rationals (`ℚ`);
* Python strings are modelled by `String`, and every string operation the
  code performs (lexicographic comparison, `startswith`, `split`, `int()`
  parsing) is re-implemented over `String.data` so that it is executable;
* the SQLAlchemy record store is modelled as a plain list of records, and a
  route handler that can write to it returns the new store alongside the
  HTTP response; a handler that raises corresponds to an `Except.error`
  carrying the HTTP status code.
-/

namespace FinanceTracker

/-! ### Python string primitives (re-implemented over `String.data`) -/

/-- Lexicographic `≤` on code-point lists: the order Python uses when it
compares two `str` values with `<=`. -/
def lexLe : List Char → List Char → Bool
  | [], _ => true
  | _ :: _, [] => false
  | a :: as, b :: bs => if a = b then lexLe as bs else decide (a < b)

/-- Python `a <= b` on strings. -/
def strLe (a b : String) : Bool := lexLe a.data b.data

/-- Python `s.startswith(p)`. -/
def strStarts (s p : String) : Bool := p.data.isPrefixOf s.data

/-- Python `s.split(sep)` for a one-character separator. -/
def splitOnChar (sep : Char) : List Char → List (List Char)
  | [] => [[]]
  | c :: rest =>
    let r := splitOnChar sep rest
    if c = sep then [] :: r
    else
      match r with
      | [] => [[c]]
      | h :: t => (c :: h) :: t

/-- The whitespace characters Python's `int()` strips before parsing
(the Unicode whitespace set of `str.strip()`): U+0009-U+000D,
U+001C-U+001F, U+0020, U+0085, U+00A0, U+1680, U+2000-U+200A, U+2028,
U+2029, U+202F, U+205F and U+3000. -/
def pySpace (c : Char) : Bool :=
  let n := c.toNat
  (0x9 ≤ n && n ≤ 0xD) || (0x1C ≤ n && n ≤ 0x20) || n == 0x85 || n == 0xA0
    || n == 0x1680 || (0x2000 ≤ n && n ≤ 0x200A) || n == 0x2028
    || n == 0x2029 || n == 0x202F || n == 0x205F || n == 0x3000

/-- Python's leading/trailing whitespace stripping. -/
def pyStrip (l : List Char) : List Char :=
  ((l.dropWhile pySpace).reverse.dropWhile pySpace).reverse

/-- A Unicode decimal digit as accepted by Python's `int()`: any
character of general category Nd (the Unicode 15.0 ranges, which is what
current CPython uses), e.g. also Arabic-Indic or fullwidth digits. -/
def pyDigit (c : Char) : Bool :=
  let n := c.toNat
  (0x30 ≤ n && n ≤ 0x39) || (0x660 ≤ n && n ≤ 0x669)
    || (0x6F0 ≤ n && n ≤ 0x6F9) || (0x7C0 ≤ n && n ≤ 0x7C9)
    || (0x966 ≤ n && n ≤ 0x96F) || (0x9E6 ≤ n && n ≤ 0x9EF)
    || (0xA66 ≤ n && n ≤ 0xA6F) || (0xAE6 ≤ n && n ≤ 0xAEF)
    || (0xB66 ≤ n && n ≤ 0xB6F) || (0xBE6 ≤ n && n ≤ 0xBEF)
    || (0xC66 ≤ n && n ≤ 0xC6F) || (0xCE6 ≤ n && n ≤ 0xCEF)
    || (0xD66 ≤ n && n ≤ 0xD6F) || (0xDE6 ≤ n && n ≤ 0xDEF)
    || (0xE50 ≤ n && n ≤ 0xE59) || (0xED0 ≤ n && n ≤ 0xED9)
    || (0xF20 ≤ n && n ≤ 0xF29) || (0x1040 ≤ n && n ≤ 0x1049)
    || (0x1090 ≤ n && n ≤ 0x1099) || (0x17E0 ≤ n && n ≤ 0x17E9)
    || (0x1810 ≤ n && n ≤ 0x1819) || (0x1946 ≤ n && n ≤ 0x194F)
    || (0x19D0 ≤ n && n ≤ 0x19D9) || (0x1A80 ≤ n && n ≤ 0x1A89)
    || (0x1A90 ≤ n && n ≤ 0x1A99) || (0x1B50 ≤ n && n ≤ 0x1B59)
    || (0x1BB0 ≤ n && n ≤ 0x1BB9) || (0x1C40 ≤ n && n ≤ 0x1C49)
    || (0x1C50 ≤ n && n ≤ 0x1C59) || (0xA620 ≤ n && n ≤ 0xA629)
    || (0xA8D0 ≤ n && n ≤ 0xA8D9) || (0xA900 ≤ n && n ≤ 0xA909)
    || (0xA9D0 ≤ n && n ≤ 0xA9D9) || (0xA9F0 ≤ n && n ≤ 0xA9F9)
    || (0xAA50 ≤ n && n ≤ 0xAA59) || (0xABF0 ≤ n && n ≤ 0xABF9)
    || (0xFF10 ≤ n && n ≤ 0xFF19) || (0x104A0 ≤ n && n ≤ 0x104A9)
    || (0x10D30 ≤ n && n ≤ 0x10D39) || (0x11066 ≤ n && n ≤ 0x1106F)
    || (0x110F0 ≤ n && n ≤ 0x110F9) || (0x11136 ≤ n && n ≤ 0x1113F)
    || (0x111D0 ≤ n && n ≤ 0x111D9) || (0x112F0 ≤ n && n ≤ 0x112F9)
    || (0x11450 ≤ n && n ≤ 0x11459) || (0x114D0 ≤ n && n ≤ 0x114D9)
    || (0x11650 ≤ n && n ≤ 0x11659) || (0x116C0 ≤ n && n ≤ 0x116C9)
    || (0x11730 ≤ n && n ≤ 0x11739) || (0x118E0 ≤ n && n ≤ 0x118E9)
    || (0x11950 ≤ n && n ≤ 0x11959) || (0x11C50 ≤ n && n ≤ 0x11C59)
    || (0x11D50 ≤ n && n ≤ 0x11D59) || (0x11DA0 ≤ n && n ≤ 0x11DA9)
    || (0x11F50 ≤ n && n ≤ 0x11F59) || (0x16A60 ≤ n && n ≤ 0x16A69)
    || (0x16AC0 ≤ n && n ≤ 0x16AC9) || (0x16B50 ≤ n && n ≤ 0x16B59)
    || (0x1D7CE ≤ n && n ≤ 0x1D7FF) || (0x1E140 ≤ n && n ≤ 0x1E149)
    || (0x1E2F0 ≤ n && n ≤ 0x1E2F9) || (0x1E4F0 ≤ n && n ≤ 0x1E4F9)
    || (0x1E950 ≤ n && n ≤ 0x1E959) || (0x1FBF0 ≤ n && n ≤ 0x1FBF9)

/-- A nonempty digit string in which single underscores may separate
digits, as accepted by Python's `int()` after sign and whitespace. -/
def pyDigits : List Char → Bool
  | [] => false
  | [c] => pyDigit c
  | c :: c' :: rest =>
    if pyDigit c then
      if c' = '_' then
        match rest with
        | [] => false
        | d :: _ => pyDigit d && pyDigits rest
      else pyDigits (c' :: rest)
    else false

/-- Whether Python's `int(s)` succeeds on the string with these
characters: optional surrounding whitespace, optional sign, digits with
single interior underscores. -/
def pyIntOk (l : List Char) : Bool :=
  match pyStrip l with
  | '+' :: rest => pyDigits rest
  | '-' :: rest => pyDigits rest
  | rest => pyDigits rest

/-- The period validation of `create_new_budget` (src/routes/budget.py
lines 67-73): `year, month = period.split("-")` must yield exactly two
parts, of lengths 4 and 2, both accepted by `int()`. -/
def validPeriod (s : String) : Bool :=
  match splitOnChar '-' s.data with
  | [y, m] => y.length = 4 && m.length = 2 && pyIntOk y && pyIntOk m
  | _ => false

/-- Python's `round(x, 2)` on exact rationals: round `x * 100` to the
nearest integer and divide by 100. -/
def round2 (q : ℚ) : ℚ := (round (q * 100) : ℤ) / 100

/-! ### Data model (src/db.py, src/models.py) -/

/-- A row of the `transactions` table, as exposed by
`transaction_to_dict` (src/utils.py). -/
structure Transaction where
  id : Nat
  user_id : Nat
  category_id : Nat
  amount : ℚ
  type : String
  transaction_date : String
  description : Option String
  created_at : Nat
deriving Repr, DecidableEq

/-- A row of the `categories` table (`category_to_dict`). -/
structure Category where
  id : Nat
  user_id : Nat
  name : String
  type : String
deriving Repr, DecidableEq

/-- A row of the `budgets` table (`budget_to_dict`). -/
structure Budget where
  id : Nat
  user_id : Nat
  category_id : Nat
  limit_amount : ℚ
  period : String
  created_at : Nat
deriving Repr, DecidableEq

/-- A row of the `goals` table (`goal_to_dict`). -/
structure Goal where
  id : Nat
  user_id : Nat
  name : String
  target_amount : ℚ
  current_amount : ℚ
  target_date : Option String
  created_at : Nat
deriving Repr, DecidableEq

/-- The `BudgetStatus` response model (src/models.py). -/
structure BudgetStatus where
  id : Nat
  user_id : Nat
  category_id : Nat
  limit_amount : ℚ
  period : String
  created_at : Nat
  category_name : String
  spent_amount : ℚ
  remaining_amount : ℚ
  percentage_used : ℚ
deriving Repr, DecidableEq

/-- The `GoalProgress` response model (src/models.py). -/
structure GoalProgress where
  id : Nat
  user_id : Nat
  name : String
  target_amount : ℚ
  current_amount : ℚ
  target_date : Option String
  created_at : Nat
  progress_percentage : ℚ
  remaining_amount : ℚ
deriving Repr, DecidableEq

/-- The `CategoryStatistics` response model (src/models.py). -/
structure CategoryStatistics where
  category_name : String
  category_id : Nat
  total_amount : ℚ
  transaction_count : Nat
  percentage : ℚ
deriving Repr, DecidableEq

/-- The `ExpenseDynamics` response model (src/models.py). -/
structure ExpenseDynamics where
  date : String
  amount : ℚ
deriving Repr, DecidableEq

/-- The `AnalyticsResponse` response model (src/models.py). -/
structure AnalyticsResponse where
  total_income : ℚ
  total_expense : ℚ
  balance : ℚ
  expense_by_category : List CategoryStatistics
  income_by_category : List CategoryStatistics
  expense_dynamics : List ExpenseDynamics
deriving Repr, DecidableEq

/-- A raised FastAPI `HTTPException`: status code plus detail message. -/
structure HTTPException where
  status_code : Nat
  detail : String
deriving Repr, DecidableEq

/-- The `BudgetCreate` request model (src/models.py). -/
structure BudgetCreate where
  category_id : Nat
  limit_amount : ℚ
  period : String
deriving Repr, DecidableEq

/-- The `GoalUpdate` request model (src/models.py): all fields optional. -/
structure GoalUpdate where
  name : Option String
  target_amount : Option ℚ
  target_date : Option String
deriving Repr, DecidableEq

/-! ### Record-store access (src/utils.py, over a list-modelled store) -/

/-- `get_category_by_id` (src/utils.py lines 179-187): first row of the
`categories` table with the given id. -/
def get_category_by_id (cats : List Category) (category_id : Nat) : Option Category :=
  cats.find? (fun c => c.id == category_id)

/-- `get_goal_by_id` (src/utils.py lines 359-367). -/
def get_goal_by_id (goals : List Goal) (goal_id : Nat) : Option Goal :=
  goals.find? (fun g => g.id == goal_id)

/-- Accumulation `spent += t.amount` over the transactions satisfying a
condition, as the Python loops do with a running total starting at `0.0`. -/
def sumBy (p : Transaction → Bool) (ts : List Transaction) : ℚ :=
  ts.foldl (fun acc t => if p t then acc + t.amount else acc) 0

/-- Counting loop over the transactions satisfying a condition. -/
def countBy (p : Transaction → Bool) (ts : List Transaction) : Nat :=
  ts.foldl (fun acc t => if p t then acc + 1 else acc) 0

/-! ### Goal progress (src/routes/goals.py) -/

/-- `calculate_goal_progress` (src/routes/goals.py lines 15-33). -/
def calculate_goal_progress (goal : Goal) : GoalProgress :=
  let current_amount := goal.current_amount
  let target_amount := goal.target_amount
  let progress_percentage :=
    if target_amount > 0 then current_amount / target_amount * 100 else 0
  let remaining_amount := max 0 (target_amount - current_amount)
  { id := goal.id
    user_id := goal.user_id
    name := goal.name
    target_amount := goal.target_amount
    current_amount := current_amount
    target_date := goal.target_date
    created_at := goal.created_at
    progress_percentage := round2 progress_percentage
    remaining_amount := remaining_amount }

/-- The update loop of `update_financial_goal` (src/routes/goals.py lines
138-143): overwrite each field for which the request supplies a value. -/
def applyGoalUpdate (goal : Goal) (gu : GoalUpdate) : Goal :=
  let goal := match gu.name with
    | some n => { goal with name := n }
    | none => goal
  let goal := match gu.target_amount with
    | some a => { goal with target_amount := a }
    | none => goal
  match gu.target_date with
  | some d => { goal with target_date := some d }
  | none => goal

/-! ### Budget status (src/routes/budget.py) -/

/-- The condition of the accumulation loop in `calculate_budget_status`
(src/routes/budget.py lines 20-24). -/
def matchesBudget (budget : Budget) (t : Transaction) : Bool :=
  t.category_id == budget.category_id && t.type == "expense"
    && strStarts t.transaction_date budget.period

/-- `calculate_budget_status` (src/routes/budget.py lines 12-40).  The
store lookups `get_category_by_id` / `get_user_transactions` are passed in
as the category table and the owning user's transaction list. -/
def calculate_budget_status (budget : Budget) (cats : List Category)
    (transactions : List Transaction) : BudgetStatus :=
  let category := get_category_by_id cats budget.category_id
  let spent_amount := sumBy (matchesBudget budget) transactions
  let remaining_amount := budget.limit_amount - spent_amount
  let percentage_used :=
    if budget.limit_amount > 0 then spent_amount / budget.limit_amount * 100 else 0
  { id := budget.id
    user_id := budget.user_id
    category_id := budget.category_id
    limit_amount := budget.limit_amount
    period := budget.period
    created_at := budget.created_at
    category_name := match category with
      | some c => c.name
      | none => "Неизвестная категория"
    spent_amount := spent_amount
    remaining_amount := remaining_amount
    percentage_used := round2 percentage_used }

/-- `create_new_budget` (src/routes/budget.py lines 42-86).  `new_id` and
`now` stand for the primary key and timestamp the database assigns in
`create_budget` (src/utils.py lines 275-289); on success the handler
appends the new row and returns its computed status. -/
def create_new_budget (cats : List Category) (transactions : List Transaction)
    (budgets : List Budget) (user_id : Nat) (budget_data : BudgetCreate)
    (new_id : Nat) (now : Nat) :
    Except HTTPException (List Budget × BudgetStatus) :=
  match get_category_by_id cats budget_data.category_id with
  | none => .error ⟨404, "Категория не найдена"⟩
  | some category =>
    if category.user_id ≠ user_id then
      .error ⟨403, "Нет доступа к этой категории"⟩
    else if category.type ≠ "expense" then
      .error ⟨400, "Бюджет можно создавать только для категорий расходов"⟩
    else if !validPeriod budget_data.period then
      .error ⟨400, "Неверный формат периода. Используйте формат YYYY-MM (например: 2024-01)"⟩
    else
      let budget : Budget :=
        ⟨new_id, user_id, budget_data.category_id, budget_data.limit_amount,
          budget_data.period, now⟩
      .ok (budgets ++ [budget], calculate_budget_status budget cats transactions)

/-! ### Goal routes (src/routes/goals.py, src/utils.py) -/

/-- `contribute_to_goal` (src/utils.py lines 370-381): find the goal row,
add `amount` to its `current_amount`, commit; `none` when the id is
absent.  Returns the updated store and the refreshed row. -/
def contribute_to_goal (store : List Goal) (goal_id : Nat) (amount : ℚ) :
    Option (List Goal × Goal) :=
  match get_goal_by_id store goal_id with
  | none => none
  | some goal =>
    let updated := { goal with current_amount := goal.current_amount + amount }
    some (store.map (fun g => if g.id == goal_id then updated else g), updated)

/-- `contribute_to_financial_goal` (src/routes/goals.py lines 87-115):
404 when the goal id is absent, 403 when it belongs to another user,
otherwise delegate to `contribute_to_goal` and return the progress of the
updated goal.  The returned store is the (possibly updated) goal table. -/
def contribute_to_financial_goal (store : List Goal) (goal_id : Nat)
    (user_id : Nat) (amount : ℚ) :
    Except HTTPException (List Goal × GoalProgress) :=
  match get_goal_by_id store goal_id with
  | none => .error ⟨404, "Финансовая цель не найдена"⟩
  | some goal =>
    if goal.user_id ≠ user_id then
      .error ⟨403, "Нет доступа к этой цели"⟩
    else
      match contribute_to_goal store goal_id amount with
      | none => .error ⟨500, "Ошибка при пополнении цели"⟩
      | some (store', updated_goal) =>
        .ok (store', calculate_goal_progress updated_goal)

/-- The goal table after a contribute request: unchanged when the handler
raises. -/
def contributeResultStore (store : List Goal) (goal_id : Nat)
    (user_id : Nat) (amount : ℚ) : List Goal :=
  match contribute_to_financial_goal store goal_id user_id amount with
  | .ok (store', _) => store'
  | .error _ => store

/-- `update_financial_goal` (src/routes/goals.py lines 118-145): 404 when
the goal id is absent, 403 when it belongs to another user; otherwise the
handler overwrites fields of the local dict copy produced by
`goal_to_dict` and computes progress from it.  It never calls
`update_goal` or commits, so the goal table is returned as it was. -/
def update_financial_goal (store : List Goal) (goal_id : Nat)
    (user_id : Nat) (gu : GoalUpdate) :
    Except HTTPException (List Goal × GoalProgress) :=
  match get_goal_by_id store goal_id with
  | none => .error ⟨404, "Финансовая цель не найдена"⟩
  | some goal =>
    if goal.user_id ≠ user_id then
      .error ⟨403, "Нет доступа к этой цели"⟩
    else
      .ok (store, calculate_goal_progress (applyGoalUpdate goal gu))

/-- The goal table after an update request. -/
def updateResultStore (store : List Goal) (goal_id : Nat)
    (user_id : Nat) (gu : GoalUpdate) : List Goal :=
  match update_financial_goal store goal_id user_id gu with
  | .ok (store', _) => store'
  | .error _ => store

/-- `create_goal` (src/utils.py lines 332-347): a freshly created goal row
always carries `current_amount = 0.0`. -/
def create_goal (user_id : Nat) (name : String) (target_amount : ℚ)
    (target_date : Option String) (new_id : Nat) (now : Nat) : Goal :=
  ⟨new_id, user_id, name, target_amount, 0, target_date, now⟩

/-- The goal states reachable through the public operations: created by
`create_goal` (so with `current_amount = 0`), then modified only by
contributions of strictly positive amounts (`GoalContribute.amount` is
validated with `gt=0`); `update_financial_goal` persists nothing and
`GoalUpdate` carries no `current_amount` field. -/
inductive ReachableGoal : Goal → Prop
  | created (user_id : Nat) (name : String) (target_amount : ℚ)
      (target_date : Option String) (new_id : Nat) (now : Nat) :
      ReachableGoal (create_goal user_id name target_amount target_date new_id now)
  | contributed (goal : Goal) (amount : ℚ) (hpos : 0 < amount)
      (h : ReachableGoal goal) :
      ReachableGoal { goal with current_amount := goal.current_amount + amount }

/-! ### Analytics (src/routes/analytics.py) -/

/-- The `start_date` filter (src/routes/analytics.py lines 22-23):
keep transactions with `transaction_date >= start_date`. -/
def filterFrom (start_date : Option String) (ts : List Transaction) :
    List Transaction :=
  match start_date with
  | some d => ts.filter (fun t => strLe d t.transaction_date)
  | none => ts

/-- The `end_date` filter (src/routes/analytics.py lines 24-25):
keep transactions with `transaction_date <= end_date`. -/
def filterTo (end_date : Option String) (ts : List Transaction) :
    List Transaction :=
  match end_date with
  | some d => ts.filter (fun t => strLe t.transaction_date d)
  | none => ts

/-- Both optional date filters, applied in source order. -/
def filterRange (start_date end_date : Option String)
    (ts : List Transaction) : List Transaction :=
  filterTo end_date (filterFrom start_date ts)

/-- Keys of a Python `defaultdict` built by one pass over the
transactions: the distinct values of `key t` over the `t` satisfying `p`,
in order of first insertion. -/
def collectKeys {α : Type} [BEq α] (key : Transaction → α)
    (p : Transaction → Bool) (ts : List Transaction) : List α :=
  ts.foldl (fun acc t =>
    if p t && !acc.contains (key t) then acc ++ [key t] else acc) []

/-- The distinct category ids among the transactions of one type, in
insertion order — the keys of `income_by_category` / `expense_by_category`
(src/routes/analytics.py lines 29-43). -/
def categoryIdsOfType (typ : String) (ts : List Transaction) : List Nat :=
  collectKeys (fun t => t.category_id) (fun t => t.type == typ) ts

/-- The accumulated `data["amount"]` of one category bucket. -/
def categoryAmountOfType (typ : String) (category_id : Nat)
    (ts : List Transaction) : ℚ :=
  sumBy (fun t => t.type == typ && t.category_id == category_id) ts

/-- The accumulated `data["count"]` of one category bucket. -/
def categoryCountOfType (typ : String) (category_id : Nat)
    (ts : List Transaction) : Nat :=
  countBy (fun t => t.type == typ && t.category_id == category_id) ts

/-- The `total_income` / `total_expense` accumulators
(src/routes/analytics.py lines 27-43). -/
def totalOfType (typ : String) (ts : List Transaction) : ℚ :=
  sumBy (fun t => t.type == typ) ts

/-- One pass of the `CategoryStatistics`-building loops
(src/routes/analytics.py lines 45-73), over an explicit key list: buckets
whose category id is not in the category table are skipped. -/
def statsEntries (cats : List Category) (typ : String) (total : ℚ)
    (ts : List Transaction) (ids : List Nat) : List CategoryStatistics :=
  ids.filterMap (fun category_id =>
    match get_category_by_id cats category_id with
    | none => none
    | some c =>
      let amount := categoryAmountOfType typ category_id ts
      let percentage := if total > 0 then amount / total * 100 else 0
      some { category_name := c.name
             category_id := category_id
             total_amount := amount
             transaction_count := categoryCountOfType typ category_id ts
             percentage := round2 percentage })

/-- One full category breakdown (unsorted). -/
def buildCategoryStats (cats : List Category) (typ : String) (total : ℚ)
    (ts : List Transaction) : List CategoryStatistics :=
  statsEntries cats typ total ts (categoryIdsOfType typ ts)

/-- The comparison of `sort(key=lambda x: x.total_amount, reverse=True)`:
a stable sort that orders greater totals first. -/
def descByAmount (a b : CategoryStatistics) : Bool :=
  decide (b.total_amount ≤ a.total_amount)

/-- The keys of `expense_by_date` (src/routes/analytics.py lines 78-84):
distinct expense dates in insertion order. -/
def expenseDates (ts : List Transaction) : List String :=
  collectKeys (fun t => t.transaction_date) (fun t => t.type == "expense") ts

/-- The accumulated expense total of one date bucket. -/
def dateAmount (d : String) (ts : List Transaction) : ℚ :=
  sumBy (fun t => t.type == "expense" && t.transaction_date == d) ts

/-- `get_financial_statistics` (src/routes/analytics.py lines 14-103). -/
def get_financial_statistics (cats : List Category) (ts : List Transaction)
    (start_date end_date : Option String) : AnalyticsResponse :=
  let transactions := filterRange start_date end_date ts
  let total_income := totalOfType ("income") transactions
  let total_expense := totalOfType ("expense") transactions
  let income_categories :=
    (buildCategoryStats cats ("income") total_income transactions).mergeSort descByAmount
  let expense_categories :=
    (buildCategoryStats cats ("expense") total_expense transactions).mergeSort descByAmount
  let expense_dynamics :=
    ((expenseDates transactions).mergeSort strLe).map
      (fun d => ⟨d, dateAmount d transactions⟩)
  { total_income := total_income
    total_expense := total_expense
    balance := total_income - total_expense
    expense_by_category := expense_categories
    income_by_category := income_categories
    expense_dynamics := expense_dynamics }

/-- `get_category_statistics` (src/routes/analytics.py lines 139-182). -/
def get_category_statistics (cats : List Category) (ts : List Transaction)
    (category_id : Nat) (user_id : Nat) (start_date end_date : Option String) :
    Except HTTPException CategoryStatistics :=
  match get_category_by_id cats category_id with
  | none => .error ⟨404, "Категория не найдена"⟩
  | some category =>
    if category.user_id ≠ user_id then
      .error ⟨403, "Нет доступа к этой категории"⟩
    else
      let transactions :=
        filterRange start_date end_date
          (ts.filter (fun t => t.category_id == category_id))
      let total_amount := (transactions.map Transaction.amount).sum
      let transaction_count := transactions.length
      let all_same_type := ts.filter (fun t => t.type == category.type)
      let total_same_type := (all_same_type.map Transaction.amount).sum
      let percentage :=
        if total_same_type > 0 then total_amount / total_same_type * 100 else 0
      .ok { category_name := category.name
            category_id := category_id
            total_amount := total_amount
            transaction_count := transaction_count
            percentage := round2 percentage }

/-! ### General lemmas about the accumulators and rounding -/

theorem foldl_sumBy (p : Transaction → Bool) (l : List Transaction) :
    ∀ init : ℚ,
      l.foldl (fun acc t => if p t then acc + t.amount else acc) init
        = init + ((l.filter p).map Transaction.amount).sum := by
  induction l with
  | nil => intro init; simp
  | cons t rest ih =>
    intro init
    by_cases h : p t
    · simp [List.filter_cons, h, ih, add_assoc]
    · simp [List.filter_cons, h, ih]

theorem sumBy_eq (p : Transaction → Bool) (ts : List Transaction) :
    sumBy p ts = ((ts.filter p).map Transaction.amount).sum := by
  simpa using foldl_sumBy p ts 0

theorem round2_zero : round2 0 = 0 := by
  norm_num [round2]

theorem round2_mono {a b : ℚ} (h : a ≤ b) : round2 a ≤ round2 b := by
  unfold round2
  have hr : round (a * 100) ≤ round (b * 100) := by
    rw [round_eq, round_eq]
    exact Int.floor_le_floor (by linarith)
  have hc : ((round (a * 100) : ℤ) : ℚ) ≤ ((round (b * 100) : ℤ) : ℚ) := by
    exact_mod_cast hr
  have h100 : (0 : ℚ) ≤ 100 := by norm_num
  exact div_le_div_of_nonneg_right hc h100

theorem round2_nonneg {a : ℚ} (h : 0 ≤ a) : 0 ≤ round2 a := by
  have := round2_mono h
  rwa [round2_zero] at this

theorem round2_hundred : round2 (100 : ℚ) = 100 := by
  have : ((100 : ℚ) * 100) = ((10000 : ℤ) : ℚ) := by norm_num
  rw [round2, this, round_intCast]
  norm_num

theorem round2_abs_sub (q : ℚ) : |round2 q - q| ≤ 1 / 200 := by
  have h := abs_sub_round (q * 100)
  have h3 : |((round (q * 100) : ℤ) : ℚ) - q * 100| ≤ 1 / 2 := by
    rw [abs_sub_comm]; exact h
  have h2 : round2 q - q = (((round (q * 100) : ℤ) : ℚ) - q * 100) / 100 := by
    rw [round2]; ring
  calc |round2 q - q| = |((round (q * 100) : ℤ) : ℚ) - q * 100| / 100 := by
        rw [h2, abs_div]
        norm_num
    _ ≤ (1 / 2) / 100 := div_le_div_of_nonneg_right h3 (by norm_num)
    _ = 1 / 200 := by norm_num

/-! ### C2: goal progress formula -/

/-- C2: `calculate_goal_progress` returns `progress_percentage` equal to
`current_amount/target_amount*100` rounded to two decimals when
`target_amount > 0` (and `0` otherwise), and `remaining_amount` equal to
`max 0 (target_amount - current_amount)`; in particular a goal with target
100000 and current 25000 yields 25.0 and 75000. -/
theorem goal_progress_spec (g : Goal) :
    (calculate_goal_progress g).progress_percentage
        = (if g.target_amount > 0
            then round2 (g.current_amount / g.target_amount * 100) else 0) ∧
    (calculate_goal_progress g).remaining_amount
        = max 0 (g.target_amount - g.current_amount) ∧
    (calculate_goal_progress ⟨7, 1, "Отпуск", 100000, 25000, none, 0⟩).progress_percentage
        = 25 ∧
    (calculate_goal_progress ⟨7, 1, "Отпуск", 100000, 25000, none, 0⟩).remaining_amount
        = 75000 := by
  refine ⟨?_, ?_, ?_, ?_⟩
  · by_cases h : g.target_amount > 0 <;>
      simp [calculate_goal_progress, h, round2_zero]
  · simp [calculate_goal_progress]
  · norm_num [calculate_goal_progress, round2, round_eq]
  · norm_num [calculate_goal_progress]

/-! ### C3: reachable goals have nonnegative amounts and progress -/

/-- C3: every goal reachable through the public operations (created with
`current_amount = 0`, then modified only by strictly positive
contributions) has `current_amount ≥ 0`, and its progress report has
`progress_percentage ≥ 0` and `remaining_amount ≥ 0`. -/
theorem goal_invariant (g : Goal) (h : ReachableGoal g) :
    0 ≤ g.current_amount ∧
    0 ≤ (calculate_goal_progress g).progress_percentage ∧
    0 ≤ (calculate_goal_progress g).remaining_amount := by
  have hcur : 0 ≤ g.current_amount := by
    induction h with
    | created user_id name target_amount target_date new_id now =>
      simp [create_goal]
    | contributed goal amount hpos hr ih =>
      simp only []
      linarith
  refine ⟨hcur, ?_, ?_⟩
  · by_cases ht : g.target_amount > 0
    · simp only [calculate_goal_progress, ht, if_true]
      exact round2_nonneg (by positivity)
    · simp [calculate_goal_progress, ht, round2_zero]
  · simp [calculate_goal_progress, le_max_left]

/-- Witness for C3: a goal created empty and then topped up by 25000 is
reachable and satisfies the invariant. -/
theorem goal_invariant_witness :
    0 ≤ ({ create_goal 1 ("Отпуск") 100000 none 5 0 with
        current_amount := (create_goal 1 ("Отпуск") 100000 none 5 0).current_amount
          + 25000 } : Goal).current_amount ∧
    0 ≤ (calculate_goal_progress { create_goal 1 ("Отпуск") 100000 none 5 0 with
        current_amount := (create_goal 1 ("Отпуск") 100000 none 5 0).current_amount
          + 25000 }).progress_percentage ∧
    0 ≤ (calculate_goal_progress { create_goal 1 ("Отпуск") 100000 none 5 0 with
        current_amount := (create_goal 1 ("Отпуск") 100000 none 5 0).current_amount
          + 25000 }).remaining_amount :=
  goal_invariant _
    (ReachableGoal.contributed (create_goal 1 ("Отпуск") 100000 none 5 0) 25000
      (by norm_num)
      (ReachableGoal.created 1 ("Отпуск") 100000 none 5 0))

/-! ### C1: budget status formula -/

/-- C1 counterexample: with limit 10000 and one matching expense of
10000.1 the budget is overspent (`spent_amount > limit_amount`,
`remaining_amount < 0`) yet `percentage_used` is exactly 100 after
rounding 100.001 to two decimals — not above 100 as claimed. -/
theorem budget_overspend_cex :
    (calculate_budget_status ⟨1, 1, 2, 10000, "2024-01", 0⟩ []
        [⟨1, 1, 2, 10000 + 1 / 10, "expense", "2024-01-16", none, 0⟩]).spent_amount
      > (10000 : ℚ) ∧
    (calculate_budget_status ⟨1, 1, 2, 10000, "2024-01", 0⟩ []
        [⟨1, 1, 2, 10000 + 1 / 10, "expense", "2024-01-16", none, 0⟩]).remaining_amount
      < 0 ∧
    (calculate_budget_status ⟨1, 1, 2, 10000, "2024-01", 0⟩ []
        [⟨1, 1, 2, 10000 + 1 / 10, "expense", "2024-01-16", none, 0⟩]).percentage_used
      = 100 := by
  have hm : matchesBudget ⟨1, 1, 2, 10000, "2024-01", 0⟩
      ⟨1, 1, 2, 10000 + 1 / 10, "expense", "2024-01-16", none, 0⟩ = true := by
    decide
  refine ⟨?_, ?_, ?_⟩ <;>
    · simp only [calculate_budget_status, sumBy, List.foldl, hm, if_true]
      norm_num [round2, round_eq]

/-- C1 (amended): the budget status computation returns `spent_amount`
equal to the sum of `amount` over exactly the owning user's transactions
matching the budget's category, type `"expense"` and period prefix;
`remaining_amount = limit_amount - spent_amount`; `percentage_used` is
`spent/limit*100` rounded to two decimals when `limit_amount > 0` and `0`
otherwise; and on overspend it still returns, with `remaining_amount`
negative and (when `limit_amount > 0`) `percentage_used` at least 100 —
rounding can bring an overspent percentage back down to exactly 100. -/
theorem budget_status_spec (b : Budget) (cats : List Category)
    (ts : List Transaction) :
    (calculate_budget_status b cats ts).spent_amount
        = ((ts.filter (matchesBudget b)).map Transaction.amount).sum ∧
    (calculate_budget_status b cats ts).remaining_amount
        = b.limit_amount - (calculate_budget_status b cats ts).spent_amount ∧
    (calculate_budget_status b cats ts).percentage_used
        = (if b.limit_amount > 0
            then round2 ((calculate_budget_status b cats ts).spent_amount
              / b.limit_amount * 100)
            else 0) ∧
    ((calculate_budget_status b cats ts).spent_amount > b.limit_amount →
      (calculate_budget_status b cats ts).remaining_amount < 0 ∧
      (0 < b.limit_amount →
        100 ≤ (calculate_budget_status b cats ts).percentage_used)) := by
  have hspent : (calculate_budget_status b cats ts).spent_amount
      = sumBy (matchesBudget b) ts := rfl
  refine ⟨?_, ?_, ?_, ?_⟩
  · rw [hspent, sumBy_eq]
  · rfl
  · by_cases h : b.limit_amount > 0 <;>
      simp [calculate_budget_status, h, round2_zero]
  · intro hover
    constructor
    · show b.limit_amount - sumBy (matchesBudget b) ts < 0
      rw [hspent] at hover
      linarith
    · intro hlim
      have hpct : (calculate_budget_status b cats ts).percentage_used
          = round2 (sumBy (matchesBudget b) ts / b.limit_amount * 100) := by
        simp [calculate_budget_status, hlim]
      rw [hpct]
      have h100 : (100 : ℚ) ≤ sumBy (matchesBudget b) ts / b.limit_amount * 100 := by
        rw [hspent] at hover
        have h1 : (1 : ℚ) ≤ sumBy (matchesBudget b) ts / b.limit_amount :=
          (one_le_div hlim).mpr (le_of_lt hover)
        linarith
      calc (100 : ℚ) = round2 100 := round2_hundred.symm
        _ ≤ round2 (sumBy (matchesBudget b) ts / b.limit_amount * 100) :=
            round2_mono h100

/-- Witness for C1: the overspend clause of `budget_status_spec` applied
to a concrete overspent budget. -/
theorem budget_status_spec_witness :
    (calculate_budget_status ⟨1, 1, 2, 10000, "2024-01", 0⟩ []
        [⟨2, 1, 2, 12000, "expense", "2024-01-20", none, 0⟩]).remaining_amount < 0 ∧
    100 ≤ (calculate_budget_status ⟨1, 1, 2, 10000, "2024-01", 0⟩ []
        [⟨2, 1, 2, 12000, "expense", "2024-01-20", none, 0⟩]).percentage_used := by
  have hm : matchesBudget ⟨1, 1, 2, 10000, "2024-01", 0⟩
      ⟨2, 1, 2, 12000, "expense", "2024-01-20", none, 0⟩ = true := by
    decide
  have hover : (calculate_budget_status ⟨1, 1, 2, 10000, "2024-01", 0⟩ []
      [⟨2, 1, 2, 12000, "expense", "2024-01-20", none, 0⟩]).spent_amount
      > (10000 : ℚ) := by
    norm_num [calculate_budget_status, sumBy, List.foldl, hm]
  have h := (budget_status_spec ⟨1, 1, 2, 10000, "2024-01", 0⟩ []
      [⟨2, 1, 2, 12000, "expense", "2024-01-20", none, 0⟩]).2.2.2 hover
  exact ⟨h.1, h.2 (by norm_num)⟩

/-! ### C10: goal update is not persisted -/

/-- C10: for an existing goal owned by the caller, the PUT handler returns
a progress report computed from the requested new field values, but the
goal table after the request is exactly the table before it. -/
theorem update_goal_not_persisted (store : List Goal) (goal_id user_id : Nat)
    (gu : GoalUpdate) (g : Goal)
    (hfind : get_goal_by_id store goal_id = some g)
    (hown : g.user_id = user_id) :
    update_financial_goal store goal_id user_id gu
        = .ok (store, calculate_goal_progress (applyGoalUpdate g gu)) ∧
    updateResultStore store goal_id user_id gu = store := by
  constructor
  · simp [update_financial_goal, hfind, hown]
  · simp [updateResultStore, update_financial_goal, hfind, hown]

/-- Witness for C10: updating a concrete stored goal's name and target
returns the recomputed progress while the store keeps the old row. -/
theorem update_goal_not_persisted_witness :
    update_financial_goal [⟨1, 1, "Отпуск", 100000, 0, none, 0⟩] 1 1
        ⟨some ("Новая цель"), some 50000, none⟩
      = .ok ([⟨1, 1, "Отпуск", 100000, 0, none, 0⟩],
          calculate_goal_progress
            (applyGoalUpdate ⟨1, 1, "Отпуск", 100000, 0, none, 0⟩
              ⟨some ("Новая цель"), some 50000, none⟩)) ∧
    updateResultStore [⟨1, 1, "Отпуск", 100000, 0, none, 0⟩] 1 1
        ⟨some ("Новая цель"), some 50000, none⟩
      = [⟨1, 1, "Отпуск", 100000, 0, none, 0⟩] :=
  update_goal_not_persisted _ 1 1 _ _ rfl rfl

/-! ### C4: contribution is pure addition -/

theorem find?_goal_map_update (store : List Goal) (goal_id : Nat)
    (g upd : Goal) (hupd : upd.id = g.id)
    (h : store.find? (fun x => x.id == goal_id) = some g) :
    (store.map (fun x => if x.id == goal_id then upd else x)).find?
        (fun x => x.id == goal_id) = some upd := by
  induction store with
  | nil => simp at h
  | cons x rest ih =>
    by_cases hx : x.id == goal_id
    · rw [List.find?_cons_of_pos (p := fun y : Goal => y.id == goal_id) rest hx] at h
      have hxg : x = g := by injection h
    -- the mapped head is `upd` and still matches the predicate
      have hgid : (g.id == goal_id) = true := by rw [← hxg]; exact hx
      have hupd' : (upd.id == goal_id) = true := by rw [hupd]; exact hgid
      simp only [List.map_cons, hx, if_true]
      exact List.find?_cons_of_pos (p := fun y : Goal => y.id == goal_id) _ hupd'
    · rw [List.find?_cons_of_neg (p := fun y : Goal => y.id == goal_id) rest hx] at h
      have hx' : (x.id == goal_id) = false := by
        simpa using hx
      simp only [List.map_cons, hx', Bool.false_eq_true, if_false]
      rw [List.find?_cons_of_neg (p := fun y : Goal => y.id == goal_id) _ hx]
      exact ih h

/-- C4: contributing `amount` to an existing goal owned by the caller
replaces the stored row by the same row with `current_amount` increased by
`amount` (record update touches no other field) and leaves every other row
in place; contributing to an absent goal id fails with 404 and leaves the
store unchanged. -/
theorem contribute_spec (store : List Goal) (goal_id user_id : Nat)
    (amount : ℚ) :
    (∀ g, get_goal_by_id store goal_id = some g → g.user_id = user_id →
      contribute_to_financial_goal store goal_id user_id amount
          = .ok (store.map (fun x => if x.id == goal_id
                then { g with current_amount := g.current_amount + amount } else x),
              calculate_goal_progress
                { g with current_amount := g.current_amount + amount }) ∧
      get_goal_by_id (contributeResultStore store goal_id user_id amount) goal_id
          = some { g with current_amount := g.current_amount + amount } ∧
      (∀ x ∈ store, x.id ≠ goal_id →
        x ∈ contributeResultStore store goal_id user_id amount)) ∧
    (get_goal_by_id store goal_id = none →
      (∃ e, contribute_to_financial_goal store goal_id user_id amount
          = .error e ∧ e.status_code = 404) ∧
      contributeResultStore store goal_id user_id amount = store) := by
  constructor
  · intro g hfind hown
    have hmain : contribute_to_financial_goal store goal_id user_id amount
        = .ok (store.map (fun x => if x.id == goal_id
              then { g with current_amount := g.current_amount + amount } else x),
            calculate_goal_progress
              { g with current_amount := g.current_amount + amount }) := by
      simp [contribute_to_financial_goal, contribute_to_goal, hfind, hown]
    have hstore : contributeResultStore store goal_id user_id amount
        = store.map (fun x => if x.id == goal_id
            then { g with current_amount := g.current_amount + amount } else x) := by
      simp [contributeResultStore, hmain]
    refine ⟨hmain, ?_, ?_⟩
    · rw [hstore]
      exact find?_goal_map_update store goal_id g _ rfl hfind
    · intro x hx hne
      rw [hstore]
      have hb : (x.id == goal_id) = false := by
        simpa using hne
      have hfx : (fun y : Goal => if y.id == goal_id
          then { g with current_amount := g.current_amount + amount } else y) x = x := by
        simp [hb]
      rw [← hfx]
      exact List.mem_map_of_mem _ hx
  · intro hnone
    refine ⟨⟨⟨404, "Финансовая цель не найдена"⟩, ?_, rfl⟩, ?_⟩
    · simp [contribute_to_financial_goal, hnone]
    · simp [contributeResultStore, contribute_to_financial_goal, hnone]

/-- Witness for C4: contributing 25000 to a concrete stored goal leaves a
row identical except for `current_amount = 0 + 25000`. -/
theorem contribute_spec_witness :
    get_goal_by_id
        (contributeResultStore [⟨1, 1, "Отпуск", 100000, 0, none, 0⟩] 1 1 25000) 1
      = some ⟨1, 1, "Отпуск", 100000, 0 + 25000, none, 0⟩ :=
  ((contribute_spec [⟨1, 1, "Отпуск", 100000, 0, none, 0⟩] 1 1 25000).1
    ⟨1, 1, "Отпуск", 100000, 0, none, 0⟩ rfl rfl).2.1

/-! ### C5: statistics totals -/

/-- The three test transactions of `init_test_data` (src/utils.py lines
455-478), used by the spec's worked example. -/
def exampleTransactions : List Transaction :=
  [⟨1, 1, 1, 50000, "income", "2024-01-15", some ("Зарплата за январь"), 0⟩,
   ⟨2, 1, 2, 5000, "expense", "2024-01-16", some ("Покупки в магазине"), 0⟩,
   ⟨3, 1, 3, 1500, "expense", "2024-01-17", some ("Проезд"), 0⟩]

/-- C5: over the optionally date-filtered transactions (inclusive at both
ends, lexicographic string comparison), `total_income` is the sum of the
income amounts, `total_expense` the sum of the expense amounts, and
`balance` their difference; the spec's worked example evaluates to
50000 / 6500 / 43500. -/
theorem statistics_totals (cats : List Category) (ts : List Transaction)
    (sd ed : Option String) :
    (get_financial_statistics cats ts sd ed).total_income
        = (((filterRange sd ed ts).filter (fun t => t.type == "income")).map
            Transaction.amount).sum ∧
    (get_financial_statistics cats ts sd ed).total_expense
        = (((filterRange sd ed ts).filter (fun t => t.type == "expense")).map
            Transaction.amount).sum ∧
    (get_financial_statistics cats ts sd ed).balance
        = (get_financial_statistics cats ts sd ed).total_income
          - (get_financial_statistics cats ts sd ed).total_expense ∧
    (∀ t, t ∈ filterRange sd ed ts ↔ t ∈ ts ∧
      (∀ d, sd = some d → strLe d t.transaction_date = true) ∧
      (∀ d, ed = some d → strLe t.transaction_date d = true)) ∧
    (get_financial_statistics [] exampleTransactions none none).total_income
        = 50000 ∧
    (get_financial_statistics [] exampleTransactions none none).total_expense
        = 6500 ∧
    (get_financial_statistics [] exampleTransactions none none).balance
        = 43500 := by
  refine ⟨?_, ?_, rfl, ?_, ?_, ?_, ?_⟩
  · show totalOfType ("income") (filterRange sd ed ts) = _
    rw [totalOfType, sumBy_eq]
  · show totalOfType ("expense") (filterRange sd ed ts) = _
    rw [totalOfType, sumBy_eq]
  · intro t
    rcases sd with _ | d <;> rcases ed with _ | e <;>
      (simp [filterRange, filterFrom, filterTo, List.mem_filter, and_assoc];
        try tauto)
  · show totalOfType ("income") (filterRange none none exampleTransactions) = 50000
    norm_num [totalOfType, sumBy, filterRange, filterFrom, filterTo,
      exampleTransactions, List.foldl]
    simp
  · show totalOfType ("expense") (filterRange none none exampleTransactions) = 6500
    norm_num [totalOfType, sumBy, filterRange, filterFrom, filterTo,
      exampleTransactions, List.foldl]
    simp
    norm_num
  · show totalOfType ("income") (filterRange none none exampleTransactions)
        - totalOfType ("expense") (filterRange none none exampleTransactions) = 43500
    norm_num [totalOfType, sumBy, filterRange, filterFrom, filterTo,
      exampleTransactions, List.foldl]
    simp
    norm_num

/-! ### Lemmas about the grouping machinery -/

theorem sumBy_cons (p : Transaction → Bool) (t : Transaction)
    (rest : List Transaction) :
    sumBy p (t :: rest) = (if p t then t.amount else 0) + sumBy p rest := by
  unfold sumBy
  rw [List.foldl_cons, foldl_sumBy, foldl_sumBy]
  by_cases h : p t <;> simp [h]

theorem collectKeys_mem {α : Type} [BEq α] [LawfulBEq α]
    (key : Transaction → α) (p : Transaction → Bool) (l : List Transaction) :
    ∀ (acc : List α) (x : α),
      (x ∈ l.foldl (fun acc t =>
          if p t && !acc.contains (key t) then acc ++ [key t] else acc) acc
        ↔ x ∈ acc ∨ ∃ t ∈ l, p t ∧ key t = x) := by
  induction l with
  | nil => intro acc x; simp
  | cons t rest ih =>
    intro acc x
    rw [List.foldl_cons, ih]
    have hstep : (x ∈ if p t && !acc.contains (key t)
          then acc ++ [key t] else acc)
        ↔ x ∈ acc ∨ (p t ∧ key t = x) := by
      by_cases hp : p t
      · by_cases hc : acc.contains (key t)
        · have hmem : key t ∈ acc := by simpa using hc
          simp only [hp, hc, Bool.not_true, Bool.and_false, if_false]
          constructor
          · intro h; exact Or.inl h
          · rintro (h | ⟨-, hk⟩)
            · exact h
            · rw [← hk]; exact hmem
        · simp only [hp, hc, Bool.not_false, Bool.and_true, if_true,
            List.mem_append, List.mem_singleton, true_and]
          constructor
          · rintro (h | h)
            · exact Or.inl h
            · exact Or.inr h.symm
          · rintro (h | h)
            · exact Or.inl h
            · exact Or.inr h.symm
      · simp [hp]
    rw [hstep, or_assoc]
    constructor
    · rintro (h | h | ⟨t', ht', hp', hk'⟩)
      · exact Or.inl h
      · exact Or.inr ⟨t, List.mem_cons_self t rest, h⟩
      · exact Or.inr ⟨t', List.mem_cons_of_mem t ht', hp', hk'⟩
    · rintro (h | ⟨t', ht', hp', hk'⟩)
      · exact Or.inl h
      · rcases List.mem_cons.mp ht' with h' | h'
        · exact Or.inr (Or.inl ⟨h' ▸ hp', h' ▸ hk'⟩)
        · exact Or.inr (Or.inr ⟨t', h', hp', hk'⟩)

theorem collectKeys_nodup {α : Type} [BEq α] [LawfulBEq α]
    (key : Transaction → α) (p : Transaction → Bool) (l : List Transaction) :
    ∀ acc : List α, acc.Nodup →
      (l.foldl (fun acc t =>
          if p t && !acc.contains (key t) then acc ++ [key t] else acc) acc).Nodup := by
  induction l with
  | nil => intro acc h; simpa
  | cons t rest ih =>
    intro acc hacc
    rw [List.foldl_cons]
    apply ih
    by_cases hp : p t
    · by_cases hc : acc.contains (key t)
      · have hmem : key t ∈ acc := by simpa using hc
        simpa [hp, hmem] using hacc
      · have hnm : key t ∉ acc := by simpa using hc
        have hif : (if p t && !acc.contains (key t)
            then acc ++ [key t] else acc) = acc ++ [key t] := by
          simp [hp, hnm]
        rw [hif]
        simp [List.nodup_append, hacc, hnm]
    · simpa [hp] using hacc

theorem categoryIdsOfType_mem (typ : String) (l : List Transaction) (x : Nat) :
    x ∈ categoryIdsOfType typ l ↔ ∃ t ∈ l, t.type = typ ∧ t.category_id = x := by
  unfold categoryIdsOfType collectKeys
  rw [collectKeys_mem]
  simp

theorem categoryIdsOfType_nodup (typ : String) (l : List Transaction) :
    (categoryIdsOfType typ l).Nodup := by
  unfold categoryIdsOfType collectKeys
  exact collectKeys_nodup _ _ l [] List.nodup_nil

theorem expenseDates_mem (l : List Transaction) (d : String) :
    d ∈ expenseDates l
      ↔ ∃ t ∈ l, t.type = "expense" ∧ t.transaction_date = d := by
  unfold expenseDates collectKeys
  rw [collectKeys_mem]
  simp

theorem expenseDates_nodup (l : List Transaction) : (expenseDates l).Nodup := by
  unfold expenseDates collectKeys
  exact collectKeys_nodup _ _ l [] List.nodup_nil

theorem sum_indicator_nodup (v : ℚ) (x : Nat) :
    ∀ ids : List Nat, ids.Nodup → x ∈ ids →
      (ids.map (fun c => if x = c then v else 0)).sum = v := by
  intro ids
  induction ids with
  | nil => intro _ h; simp at h
  | cons c rest ih =>
    intro hnd hx
    rcases List.mem_cons.mp hx with h | h
    · subst h
      have hout : x ∉ rest := (List.nodup_cons.mp hnd).1
      have hz : ((rest.map (fun c => if x = c then v else 0)).sum) = 0 := by
        apply List.sum_eq_zero
        intro y hy
        rcases List.mem_map.mp hy with ⟨c', hc', hval⟩
        have hne : x ≠ c' := fun hxc => hout (hxc ▸ hc')
        rw [← hval, if_neg hne]
      simp [hz]
    · have hne : x ≠ c := by
        intro he
        exact (List.nodup_cons.mp hnd).1 (he ▸ h)
      simp only [List.map_cons, List.sum_cons, hne, if_false]
      rw [ih (List.nodup_cons.mp hnd).2 h]
      simp

/-- Summing the per-category buckets over a duplicate-free key list that
covers every transaction of the type recovers the type's total. -/
theorem fiber_partition (typ : String) (l : List Transaction) :
    ∀ ids : List Nat, ids.Nodup →
      (∀ t ∈ l, t.type = typ → t.category_id ∈ ids) →
      (ids.map (fun cid => categoryAmountOfType typ cid l)).sum
        = totalOfType typ l := by
  induction l with
  | nil =>
    intro ids _ _
    simp only [categoryAmountOfType, totalOfType, sumBy, List.foldl_nil]
    exact List.sum_eq_zero (by
      intro y hy
      rcases List.mem_map.mp hy with ⟨c, -, hval⟩
      exact hval.symm)
  | cons t rest ih =>
    intro ids hnd hcov
    have hrest : (ids.map (fun cid => categoryAmountOfType typ cid rest)).sum
        = totalOfType typ rest :=
      ih ids hnd (fun t' ht' h' => hcov t' (List.mem_cons_of_mem t ht') h')
    have hsplit : ∀ cid, categoryAmountOfType typ cid (t :: rest)
        = (if t.type == typ && t.category_id == cid then t.amount else 0)
          + categoryAmountOfType typ cid rest := by
      intro cid
      exact sumBy_cons _ t rest
    have hmap : (ids.map (fun cid => categoryAmountOfType typ cid (t :: rest)))
        = ids.map (fun cid =>
            (if t.type == typ && t.category_id == cid then t.amount else 0)
            + categoryAmountOfType typ cid rest) := by
      exact List.map_congr_left (fun cid _ => hsplit cid)
    rw [hmap, List.sum_map_add, hrest]
    have htot : totalOfType typ (t :: rest)
        = (if t.type == typ then t.amount else 0) + totalOfType typ rest :=
      sumBy_cons _ t rest
    rw [htot]
    congr 1
    by_cases hty : t.type = typ
    · have hb : (t.type == typ) = true := by simp [hty]
      simp only [hb, Bool.true_and, if_true]
      have hin : t.category_id ∈ ids := hcov t (List.mem_cons_self t rest) hty
      have : (ids.map (fun cid =>
          if t.category_id == cid then t.amount else 0)).sum = t.amount := by
        have heq : (ids.map (fun cid =>
            if t.category_id == cid then t.amount else 0))
            = ids.map (fun cid => if t.category_id = cid then t.amount else 0) := by
          apply List.map_congr_left
          intro cid _
          by_cases h : t.category_id = cid <;> simp [h]
        rw [heq]
        exact sum_indicator_nodup t.amount t.category_id ids hnd hin
      simpa using this
    · have hb : (t.type == typ) = false := by simp [hty]
      simp only [hb, Bool.false_and, Bool.false_eq_true, if_false]
      exact List.sum_eq_zero (by
        intro y hy
        rcases List.mem_map.mp hy with ⟨c, -, hval⟩
        exact hval.symm)

/-- Under the hypothesis that every key has a category row, the
breakdown's entries are in bijection with the key list. -/
theorem statsEntries_length (cats : List Category) (typ : String) (total : ℚ)
    (ts : List Transaction) :
    ∀ ids : List Nat,
      (∀ cid ∈ ids, (get_category_by_id cats cid).isSome = true) →
      (statsEntries cats typ total ts ids).length = ids.length := by
  intro ids
  induction ids with
  | nil => intro _; rfl
  | cons cid rest ih =>
    intro hfound
    have hsome : (get_category_by_id cats cid).isSome = true :=
      hfound cid (List.mem_cons_self cid rest)
    rcases Option.isSome_iff_exists.mp hsome with ⟨c, hc⟩
    simp only [statsEntries, List.filterMap_cons, hc]
    simpa [statsEntries] using
      ih (fun x hx => hfound x (List.mem_cons_of_mem cid hx))

/-- The percentages of the breakdown, entry by entry, are the rounded
per-key percentages. -/
theorem statsEntries_percentages (cats : List Category) (typ : String)
    (total : ℚ) (ts : List Transaction) :
    ∀ ids : List Nat,
      (∀ cid ∈ ids, (get_category_by_id cats cid).isSome = true) →
      ((statsEntries cats typ total ts ids).map CategoryStatistics.percentage)
        = ids.map (fun cid => round2 (if total > 0
            then categoryAmountOfType typ cid ts / total * 100 else 0)) := by
  intro ids
  induction ids with
  | nil => intro _; rfl
  | cons cid rest ih =>
    intro hfound
    have hsome : (get_category_by_id cats cid).isSome = true :=
      hfound cid (List.mem_cons_self cid rest)
    rcases Option.isSome_iff_exists.mp hsome with ⟨c, hc⟩
    have htail := ih (fun x hx => hfound x (List.mem_cons_of_mem cid hx))
    simp only [statsEntries] at htail ⊢
    simp [List.filterMap_cons, hc, htail]

/-- Rounding each summand to two decimals moves a list sum by at most
half a cent per entry. -/
theorem sum_round2_close (xs : List ℚ) :
    |(xs.map round2).sum - xs.sum| ≤ (xs.length : ℚ) / 200 := by
  induction xs with
  | nil => simp
  | cons x rest ih =>
    simp only [List.map_cons, List.sum_cons, List.length_cons]
    have h1 := round2_abs_sub x
    calc |round2 x + (rest.map round2).sum - (x + rest.sum)|
        = |(round2 x - x) + ((rest.map round2).sum - rest.sum)| := by ring_nf
      _ ≤ |round2 x - x| + |(rest.map round2).sum - rest.sum| := abs_add _ _
      _ ≤ 1 / 200 + (rest.length : ℚ) / 200 := add_le_add h1 ih
      _ = ((rest.length + 1 : Nat) : ℚ) / 200 := by push_cast; ring

/-- The membership form of `statsEntries`: every entry arises from a key
whose category row exists, and its fields are the bucket data. -/
theorem statsEntries_mem_elim (cats : List Category) (typ : String)
    (total : ℚ) (ts : List Transaction) (ids : List Nat)
    (e : CategoryStatistics) (he : e ∈ statsEntries cats typ total ts ids) :
    e.total_amount = categoryAmountOfType typ e.category_id ts ∧
    e.percentage = round2 (if total > 0
      then categoryAmountOfType typ e.category_id ts / total * 100 else 0) := by
  rcases List.mem_filterMap.mp he with ⟨cid, -, hf⟩
  rcases hcase : get_category_by_id cats cid with _ | c
  · rw [hcase] at hf
    simp at hf
  · rw [hcase] at hf
    simp only [Option.some.injEq] at hf
    subst hf
    exact ⟨rfl, rfl⟩

/-- One category breakdown, for a type whose filtered total is positive
and whose keys all have category rows: each entry's percentage is the
rounded share of the total, and the percentages sum to 100 up to half a
cent per entry. -/
theorem breakdown_sum_bound (cats : List Category) (typ : String)
    (l : List Transaction)
    (htot : 0 < totalOfType typ l)
    (hfound : ∀ cid ∈ categoryIdsOfType typ l,
      (get_category_by_id cats cid).isSome = true) :
    (∀ e ∈ buildCategoryStats cats typ (totalOfType typ l) l,
        e.percentage = round2 (e.total_amount / totalOfType typ l * 100)) ∧
    |((buildCategoryStats cats typ (totalOfType typ l) l).map
        CategoryStatistics.percentage).sum - 100|
      ≤ ((buildCategoryStats cats typ (totalOfType typ l) l).length : ℚ) / 200 := by
  constructor
  · intro e he
    rcases statsEntries_mem_elim cats typ _ l _ e he with ⟨hamt, hpct⟩
    rw [hpct, if_pos htot, ← hamt]
  · have hpmap : ((buildCategoryStats cats typ (totalOfType typ l) l).map
        CategoryStatistics.percentage)
        = (categoryIdsOfType typ l).map (fun cid => round2 (if totalOfType typ l > 0
            then categoryAmountOfType typ cid l / totalOfType typ l * 100 else 0)) :=
      statsEntries_percentages cats typ _ l (categoryIdsOfType typ l) hfound
    have hpmap2 : ((buildCategoryStats cats typ (totalOfType typ l) l).map
        CategoryStatistics.percentage)
        = ((categoryIdsOfType typ l).map (fun cid =>
            categoryAmountOfType typ cid l / totalOfType typ l * 100)).map round2 := by
      rw [hpmap, List.map_map]
      apply List.map_congr_left
      intro cid _
      simp [htot]
    have hsum : ((categoryIdsOfType typ l).map (fun cid =>
        categoryAmountOfType typ cid l / totalOfType typ l * 100)).sum = 100 := by
      have hfactor : ((categoryIdsOfType typ l).map (fun cid =>
          categoryAmountOfType typ cid l / totalOfType typ l * 100))
          = (categoryIdsOfType typ l).map (fun cid =>
            categoryAmountOfType typ cid l * (100 / totalOfType typ l)) := by
        apply List.map_congr_left
        intro cid _
        ring
      rw [hfactor, List.sum_map_mul_right,
        fiber_partition typ l (categoryIdsOfType typ l)
          (categoryIdsOfType_nodup typ l)
          (fun t ht hty => (categoryIdsOfType_mem typ l t.category_id).mpr
            ⟨t, ht, hty, rfl⟩)]
      field_simp
    have hlen : ((categoryIdsOfType typ l).map (fun cid =>
        categoryAmountOfType typ cid l / totalOfType typ l * 100)).length
        = (buildCategoryStats cats typ (totalOfType typ l) l).length := by
      rw [List.length_map, buildCategoryStats,
        statsEntries_length cats typ _ l _ hfound]
    have hb := sum_round2_close ((categoryIdsOfType typ l).map (fun cid =>
        categoryAmountOfType typ cid l / totalOfType typ l * 100))
    rw [hlen] at hb
    have goal_eq : |(((categoryIdsOfType typ l).map (fun cid =>
          categoryAmountOfType typ cid l / totalOfType typ l * 100)).map
            round2).sum - 100|
        = |(((categoryIdsOfType typ l).map (fun cid =>
            categoryAmountOfType typ cid l / totalOfType typ l * 100)).map
              round2).sum
          - ((categoryIdsOfType typ l).map (fun cid =>
            categoryAmountOfType typ cid l / totalOfType typ l * 100)).sum| := by
      rw [hsum]
    rw [hpmap2, goal_eq]
    exact hb

/-! ### C6: category percentages -/

/-- C6: in the statistics report, for each type whose filtered total is
strictly positive (and whose buckets all have category rows, which is the
data integrity the transaction routes maintain), every entry's percentage
is its amount over the type total times 100 rounded to two decimals, and
the percentages sum to 100 up to rounding error (half a unit of the last
place per entry). -/
theorem statistics_percentages (cats : List Category) (ts : List Transaction)
    (sd ed : Option String) :
    (0 < totalOfType ("income") (filterRange sd ed ts) →
      (∀ cid ∈ categoryIdsOfType ("income") (filterRange sd ed ts),
        (get_category_by_id cats cid).isSome = true) →
      (∀ e ∈ (get_financial_statistics cats ts sd ed).income_by_category,
          e.percentage = round2 (e.total_amount
            / totalOfType ("income") (filterRange sd ed ts) * 100)) ∧
      |((get_financial_statistics cats ts sd ed).income_by_category.map
          CategoryStatistics.percentage).sum - 100|
        ≤ ((get_financial_statistics cats ts sd ed).income_by_category.length : ℚ)
            / 200) ∧
    (0 < totalOfType ("expense") (filterRange sd ed ts) →
      (∀ cid ∈ categoryIdsOfType ("expense") (filterRange sd ed ts),
        (get_category_by_id cats cid).isSome = true) →
      (∀ e ∈ (get_financial_statistics cats ts sd ed).expense_by_category,
          e.percentage = round2 (e.total_amount
            / totalOfType ("expense") (filterRange sd ed ts) * 100)) ∧
      |((get_financial_statistics cats ts sd ed).expense_by_category.map
          CategoryStatistics.percentage).sum - 100|
        ≤ ((get_financial_statistics cats ts sd ed).expense_by_category.length : ℚ)
            / 200) := by
  constructor
  · intro hti hfi
    have hI := breakdown_sum_bound cats ("income") (filterRange sd ed ts) hti hfi
    have hinc : (get_financial_statistics cats ts sd ed).income_by_category
        = (buildCategoryStats cats ("income")
            (totalOfType ("income") (filterRange sd ed ts))
            (filterRange sd ed ts)).mergeSort descByAmount := rfl
    have permI := List.mergeSort_perm (buildCategoryStats cats ("income")
        (totalOfType ("income") (filterRange sd ed ts))
        (filterRange sd ed ts)) descByAmount
    constructor
    · intro e he
      rw [hinc] at he
      exact hI.1 e (permI.mem_iff.mp he)
    · rw [hinc, ((permI.map CategoryStatistics.percentage).sum_eq : _),
        permI.length_eq]
      exact hI.2
  · intro hte hfe
    have hE := breakdown_sum_bound cats ("expense") (filterRange sd ed ts) hte hfe
    have hexp : (get_financial_statistics cats ts sd ed).expense_by_category
        = (buildCategoryStats cats ("expense")
            (totalOfType ("expense") (filterRange sd ed ts))
            (filterRange sd ed ts)).mergeSort descByAmount := rfl
    have permE := List.mergeSort_perm (buildCategoryStats cats ("expense")
        (totalOfType ("expense") (filterRange sd ed ts))
        (filterRange sd ed ts)) descByAmount
    constructor
    · intro e he
      rw [hexp] at he
      exact hE.1 e (permE.mem_iff.mp he)
    · rw [hexp, ((permE.map CategoryStatistics.percentage).sum_eq : _),
        permE.length_eq]
      exact hE.2

/-- Witness for C6: the worked-example store (one income category, two
expense categories, three transactions) satisfies both sum bounds. -/
theorem statistics_percentages_witness :
    |((get_financial_statistics
        [⟨1, 1, "Зарплата", "income"⟩, ⟨2, 1, "Продукты", "expense"⟩,
          ⟨3, 1, "Транспорт", "expense"⟩]
        [⟨1, 1, 1, 50000, "income", "2024-01-15", none, 0⟩,
          ⟨2, 1, 2, 5000, "expense", "2024-01-16", none, 0⟩,
          ⟨3, 1, 3, 1500, "expense", "2024-01-17", none, 0⟩]
        none none).income_by_category.map
        CategoryStatistics.percentage).sum - 100|
      ≤ ((get_financial_statistics
        [⟨1, 1, "Зарплата", "income"⟩, ⟨2, 1, "Продукты", "expense"⟩,
          ⟨3, 1, "Транспорт", "expense"⟩]
        [⟨1, 1, 1, 50000, "income", "2024-01-15", none, 0⟩,
          ⟨2, 1, 2, 5000, "expense", "2024-01-16", none, 0⟩,
          ⟨3, 1, 3, 1500, "expense", "2024-01-17", none, 0⟩]
        none none).income_by_category.length : ℚ) / 200 ∧
    |((get_financial_statistics
        [⟨1, 1, "Зарплата", "income"⟩, ⟨2, 1, "Продукты", "expense"⟩,
          ⟨3, 1, "Транспорт", "expense"⟩]
        [⟨1, 1, 1, 50000, "income", "2024-01-15", none, 0⟩,
          ⟨2, 1, 2, 5000, "expense", "2024-01-16", none, 0⟩,
          ⟨3, 1, 3, 1500, "expense", "2024-01-17", none, 0⟩]
        none none).expense_by_category.map
        CategoryStatistics.percentage).sum - 100|
      ≤ ((get_financial_statistics
        [⟨1, 1, "Зарплата", "income"⟩, ⟨2, 1, "Продукты", "expense"⟩,
          ⟨3, 1, "Транспорт", "expense"⟩]
        [⟨1, 1, 1, 50000, "income", "2024-01-15", none, 0⟩,
          ⟨2, 1, 2, 5000, "expense", "2024-01-16", none, 0⟩,
          ⟨3, 1, 3, 1500, "expense", "2024-01-17", none, 0⟩]
        none none).expense_by_category.length : ℚ) / 200 := by
  have h := statistics_percentages
    [⟨1, 1, "Зарплата", "income"⟩, ⟨2, 1, "Продукты", "expense"⟩,
      ⟨3, 1, "Транспорт", "expense"⟩]
    [⟨1, 1, 1, 50000, "income", "2024-01-15", none, 0⟩,
      ⟨2, 1, 2, 5000, "expense", "2024-01-16", none, 0⟩,
      ⟨3, 1, 3, 1500, "expense", "2024-01-17", none, 0⟩]
    none none
  exact ⟨(h.1
      (by norm_num [totalOfType, sumBy, filterRange, filterFrom, filterTo,
        List.foldl]; simp)
      (by decide)).2,
    (h.2
      (by norm_num [totalOfType, sumBy, filterRange, filterFrom, filterTo,
        List.foldl]; simp; norm_num)
      (by decide)).2⟩

/-! ### Order lemmas for the sort comparisons -/

theorem lexLe_total : ∀ a b : List Char, (lexLe a b || lexLe b a) = true := by
  intro a
  induction a with
  | nil => intro b; simp [lexLe]
  | cons x xs ih =>
    intro b
    cases b with
    | nil => simp [lexLe]
    | cons y ys =>
      by_cases hxy : x = y
      · subst hxy
        simpa [lexLe] using ih ys
      · have hyx : y ≠ x := fun h => hxy h.symm
        simp only [lexLe, if_neg hxy, if_neg hyx]
        rcases lt_or_gt_of_ne hxy with h | h
        · simp [h]
        · simp [h]

theorem lexLe_trans : ∀ a b c : List Char,
    lexLe a b = true → lexLe b c = true → lexLe a c = true := by
  intro a
  induction a with
  | nil => intro b c _ _; simp [lexLe]
  | cons x xs ih =>
    intro b c hab hbc
    cases b with
    | nil => simp [lexLe] at hab
    | cons y ys =>
      cases c with
      | nil => simp [lexLe] at hbc
      | cons z zs =>
        by_cases hxy : x = y
        · subst hxy
          simp only [lexLe, if_pos rfl] at hab
          by_cases hxz : x = z
          · subst hxz
            simp only [lexLe, if_pos rfl] at hbc ⊢
            exact ih ys zs hab hbc
          · simp only [lexLe, if_neg hxz] at hbc ⊢
            exact hbc
        · simp only [lexLe, if_neg hxy] at hab
          have hxy' : x < y := of_decide_eq_true hab
          by_cases hyz : y = z
          · subst hyz
            simp only [lexLe, if_neg hxy]
            exact decide_eq_true hxy'
          · simp only [lexLe, if_neg hyz] at hbc
            have hyz' : y < z := of_decide_eq_true hbc
            have hxz' : x < z := lt_trans hxy' hyz'
            simp only [lexLe, if_neg (ne_of_lt hxz')]
            exact decide_eq_true hxz'

theorem strLe_total (a b : String) : (strLe a b || strLe b a) = true :=
  lexLe_total a.data b.data

theorem strLe_trans (a b c : String) :
    strLe a b = true → strLe b c = true → strLe a c = true :=
  lexLe_trans a.data b.data c.data

theorem descByAmount_trans (a b c : CategoryStatistics) :
    descByAmount a b = true → descByAmount b c = true →
      descByAmount a c = true := by
  intro hab hbc
  exact decide_eq_true
    (le_trans (of_decide_eq_true hbc) (of_decide_eq_true hab))

theorem descByAmount_total (a b : CategoryStatistics) :
    (descByAmount a b || descByAmount b a) = true := by
  rcases le_total b.total_amount a.total_amount with h | h
  · simp [descByAmount, h]
  · simp [descByAmount, h]

/-! ### C9: ordering of the report's lists -/

/-- C9: both category breakdowns of the statistics report are sorted with
greater `total_amount` first, and `expense_dynamics` has exactly one entry
per distinct expense date of the filtered transactions, carrying that
date's expense total, in strictly ascending date order. -/
theorem statistics_ordering (cats : List Category) (ts : List Transaction)
    (sd ed : Option String) :
    (get_financial_statistics cats ts sd ed).income_by_category.Pairwise
        (fun a b => b.total_amount ≤ a.total_amount) ∧
    (get_financial_statistics cats ts sd ed).expense_by_category.Pairwise
        (fun a b => b.total_amount ≤ a.total_amount) ∧
    ((get_financial_statistics cats ts sd ed).expense_dynamics.map
        ExpenseDynamics.date).Pairwise
        (fun a b => strLe a b = true ∧ a ≠ b) ∧
    (∀ e ∈ (get_financial_statistics cats ts sd ed).expense_dynamics,
        e.amount = dateAmount e.date (filterRange sd ed ts)) ∧
    (∀ d, (∃ e ∈ (get_financial_statistics cats ts sd ed).expense_dynamics,
        e.date = d) ↔
      ∃ t ∈ filterRange sd ed ts, t.type = "expense"
        ∧ t.transaction_date = d) := by
  have hdyn : (get_financial_statistics cats ts sd ed).expense_dynamics
      = ((expenseDates (filterRange sd ed ts)).mergeSort strLe).map
          (fun d => ⟨d, dateAmount d (filterRange sd ed ts)⟩) := rfl
  have hdates : ((get_financial_statistics cats ts sd ed).expense_dynamics.map
      ExpenseDynamics.date)
      = (expenseDates (filterRange sd ed ts)).mergeSort strLe := by
    rw [hdyn, List.map_map]
    exact List.map_id _
  have hperm := List.mergeSort_perm (expenseDates (filterRange sd ed ts)) strLe
  refine ⟨?_, ?_, ?_, ?_, ?_⟩
  · exact (List.sorted_mergeSort descByAmount_trans descByAmount_total
      (buildCategoryStats cats ("income")
        (totalOfType ("income") (filterRange sd ed ts))
        (filterRange sd ed ts))).imp (fun h => of_decide_eq_true h)
  · exact (List.sorted_mergeSort descByAmount_trans descByAmount_total
      (buildCategoryStats cats ("expense")
        (totalOfType ("expense") (filterRange sd ed ts))
        (filterRange sd ed ts))).imp (fun h => of_decide_eq_true h)
  · rw [hdates]
    have hsorted := List.sorted_mergeSort strLe_trans strLe_total
      (expenseDates (filterRange sd ed ts))
    have hnodup : ((expenseDates (filterRange sd ed ts)).mergeSort strLe).Nodup :=
      hperm.nodup_iff.mpr (expenseDates_nodup _)
    exact hsorted.and hnodup
  · intro e he
    rw [hdyn] at he
    rcases List.mem_map.mp he with ⟨d, -, rfl⟩
    rfl
  · intro d
    constructor
    · rintro ⟨e, he, rfl⟩
      rw [hdyn] at he
      rcases List.mem_map.mp he with ⟨d', hd', rfl⟩
      exact (expenseDates_mem _ _).mp (hperm.mem_iff.mp hd')
    · intro ht
      have hd : d ∈ (expenseDates (filterRange sd ed ts)).mergeSort strLe :=
        hperm.mem_iff.mpr ((expenseDates_mem _ _).mpr ht)
      refine ⟨⟨d, dateAmount d (filterRange sd ed ts)⟩, ?_, rfl⟩
      rw [hdyn]
      exact List.mem_map_of_mem _ hd

/-! ### C7: per-category statistics -/

/-- C7: for an existing category owned by the caller, the per-category
endpoint returns the sum and count of the user's transactions in that
category within the optional inclusive date range, and a percentage taken
relative to ALL of the user's transactions of the category's type
(unfiltered), rounded to two decimals, or 0 when that same-type total is
not positive. -/
theorem category_statistics_spec (cats : List Category) (ts : List Transaction)
    (category_id user_id : Nat) (sd ed : Option String) (c : Category)
    (hfind : get_category_by_id cats category_id = some c)
    (hown : c.user_id = user_id) :
    get_category_statistics cats ts category_id user_id sd ed
      = .ok { category_name := c.name
              category_id := category_id
              total_amount := ((filterRange sd ed (ts.filter
                  (fun t => t.category_id == category_id))).map
                  Transaction.amount).sum
              transaction_count := (filterRange sd ed (ts.filter
                  (fun t => t.category_id == category_id))).length
              percentage := if 0 < ((ts.filter (fun t => t.type == c.type)).map
                    Transaction.amount).sum
                  then round2 (((filterRange sd ed (ts.filter
                      (fun t => t.category_id == category_id))).map
                      Transaction.amount).sum
                    / ((ts.filter (fun t => t.type == c.type)).map
                      Transaction.amount).sum * 100)
                  else 0 } := by
  by_cases h : 0 < ((ts.filter (fun t => t.type == c.type)).map
      Transaction.amount).sum
  · simp [get_category_statistics, hfind, hown, h]
  · simp [get_category_statistics, hfind, hown, h, round2_zero]

/-- Witness for C7: concrete category and transaction store. -/
theorem category_statistics_spec_witness :
    get_category_statistics [⟨2, 1, "Продукты", "expense"⟩]
        [⟨2, 1, 2, 5000, "expense", "2024-01-16", none, 0⟩] 2 1 none none
      = .ok { category_name := "Продукты"
              category_id := 2
              total_amount := ((filterRange none none
                  (List.filter (fun t => t.category_id == 2)
                    [⟨2, 1, 2, 5000, "expense", "2024-01-16", none, 0⟩])).map
                  Transaction.amount).sum
              transaction_count := (filterRange none none
                  (List.filter (fun t => t.category_id == 2)
                    [⟨2, 1, 2, 5000, "expense", "2024-01-16", none, 0⟩])).length
              percentage := if 0 < ((List.filter (fun t => t.type == "expense")
                    [⟨2, 1, 2, 5000, "expense", "2024-01-16", none, 0⟩]).map
                    Transaction.amount).sum
                  then round2 (((filterRange none none
                      (List.filter (fun t => t.category_id == 2)
                        [⟨2, 1, 2, 5000, "expense", "2024-01-16", none, 0⟩])).map
                      Transaction.amount).sum
                    / ((List.filter (fun t => t.type == "expense")
                      [⟨2, 1, 2, 5000, "expense", "2024-01-16", none, 0⟩]).map
                      Transaction.amount).sum * 100)
                  else 0 } :=
  category_statistics_spec [⟨2, 1, "Продукты", "expense"⟩]
    [⟨2, 1, 2, 5000, "expense", "2024-01-16", none, 0⟩] 2 1 none none
    ⟨2, 1, "Продукты", "expense"⟩ rfl rfl

/-! ### C8: budget creation errors -/

/-- C8: budget creation returns 404 for an unknown category id, 403 for a
category of another user, 400 for a non-expense category or a malformed
period (not exactly one dash splitting a 4-character year and a
2-character month that both parse as Python integers); otherwise it
appends the budget row and returns its computed status. -/
theorem create_budget_spec (cats : List Category) (ts : List Transaction)
    (budgets : List Budget) (user_id : Nat) (bd : BudgetCreate)
    (new_id now : Nat) :
    (get_category_by_id cats bd.category_id = none →
      ∃ e, create_new_budget cats ts budgets user_id bd new_id now
          = .error e ∧ e.status_code = 404) ∧
    (∀ c, get_category_by_id cats bd.category_id = some c →
      (c.user_id ≠ user_id →
        ∃ e, create_new_budget cats ts budgets user_id bd new_id now
            = .error e ∧ e.status_code = 403) ∧
      (c.user_id = user_id → c.type ≠ "expense" →
        ∃ e, create_new_budget cats ts budgets user_id bd new_id now
            = .error e ∧ e.status_code = 400) ∧
      (c.user_id = user_id → c.type = "expense" →
          validPeriod bd.period = false →
        ∃ e, create_new_budget cats ts budgets user_id bd new_id now
            = .error e ∧ e.status_code = 400) ∧
      (c.user_id = user_id → c.type = "expense" →
          validPeriod bd.period = true →
        create_new_budget cats ts budgets user_id bd new_id now
          = .ok (budgets ++ [⟨new_id, user_id, bd.category_id,
                bd.limit_amount, bd.period, now⟩],
              calculate_budget_status ⟨new_id, user_id, bd.category_id,
                bd.limit_amount, bd.period, now⟩ cats ts))) := by
  constructor
  · intro hnone
    refine ⟨⟨404, "Категория не найдена"⟩, ?_, rfl⟩
    simp [create_new_budget, hnone]
  · intro c hsome
    refine ⟨?_, ?_, ?_, ?_⟩
    · intro hne
      refine ⟨⟨403, "Нет доступа к этой категории"⟩, ?_, rfl⟩
      simp [create_new_budget, hsome, hne]
    · intro hown hty
      refine ⟨⟨400, "Бюджет можно создавать только для категорий расходов"⟩,
        ?_, rfl⟩
      simp [create_new_budget, hsome, hown, hty]
    · intro hown hty hper
      refine ⟨⟨400,
        "Неверный формат периода. Используйте формат YYYY-MM (например: 2024-01)"⟩,
        ?_, rfl⟩
      simp [create_new_budget, hsome, hown, hty, hper]
    · intro hown hty hper
      simp [create_new_budget, hsome, hown, hty, hper]

/-- Witness for C8: creating a budget for an owned expense category with a
well-formed period succeeds and returns the computed status. -/
theorem create_budget_spec_witness :
    create_new_budget [⟨2, 1, "Продукты", "expense"⟩] [] [] 1
        ⟨2, 10000, "2024-01"⟩ 1 0
      = .ok ([] ++ [⟨1, 1, 2, 10000, "2024-01", 0⟩],
          calculate_budget_status ⟨1, 1, 2, 10000, "2024-01", 0⟩
            [⟨2, 1, "Продукты", "expense"⟩] []) :=
  (((create_budget_spec [⟨2, 1, "Продукты", "expense"⟩] [] [] 1
      ⟨2, 10000, "2024-01"⟩ 1 0).2
    ⟨2, 1, "Продукты", "expense"⟩ rfl).2.2.2) rfl rfl (by decide)

end FinanceTracker
